import Mathlib

/-!
Verification of the rustybar core (src/main.rs): the window-placement
geometry (`compute_window_bounds`) and the hex color model (`Color`,
`Color.from_str`, the `gl_*` accessors).

Modelling conventions:
* Rust `f64`/`f32` arithmetic is embedded as exact rational arithmetic (`ℚ`);
  the claims about the geometry and the alpha channel are stated "exact,
  modulo floating point" and are settled in this exact model.
* Rust strings are embedded as `List Char` (the string seen at character
  granularity, which coincides with the source's byte indexing on ASCII
  input).
* Fallible and panicking behaviour of `Color::from_str` is made total with
  an explicit outcome type: `Ok` and the two error kinds the source can
  return (`ColorParseError` and the numeric `ParseIntError` propagated by
  `?`), plus the two panic sites (`.unwrap()` on an empty string, and an
  out-of-range fixed-offset slice `&s[i..j]`).
-/

/-- The four desktop edges a strip can anchor to (`enum Anchor` in src/main.rs). -/
inductive Anchor
| Top
| Bottom
| Left
| Right
deriving DecidableEq

/-- Shallow embedding of `compute_window_bounds` from src/main.rs.
`Vector2<f64>` pairs become pairs of rationals; the result is
`((position_x, position_y), (size_x, size_y))`. -/
def compute_window_bounds (desktop_size : ℚ × ℚ) (anchor : Anchor)
    (gap_v : ℚ × ℚ) (gap_h : ℚ × ℚ) (size : ℚ) : (ℚ × ℚ) × (ℚ × ℚ) :=
  let position_x :=
    match anchor with
    | .Top | .Bottom | .Left => gap_h.1
    | .Right => desktop_size.1 - gap_h.2 - size
  let position_y :=
    match anchor with
    | .Bottom => desktop_size.2 - gap_v.2 - size
    | .Top | .Right | .Left => gap_v.1
  let size_y :=
    match anchor with
    | .Top | .Bottom => size
    | .Left | .Right => desktop_size.2 - gap_v.1 - gap_v.2
  let size_x :=
    match anchor with
    | .Top | .Bottom => desktop_size.1 - gap_h.1 - gap_h.2
    | .Left | .Right => size
  ((position_x, position_y), (size_x, size_y))

/-- `struct Color` from src/main.rs: `r`, `g`, `b` are `u8` bytes (embedded as
`Nat`, always ≤ 255 for parsed colors) and `a` is the `f32` alpha, embedded
as an exact rational. -/
structure Color where
  r : Nat
  g : Nat
  b : Nat
  a : ℚ
deriving DecidableEq

/-- The possible outcomes of `Color::from_str`: success, the two error values
the Rust function can return, and its two panic sites made explicit. -/
inductive FromStrResult
| ok (c : Color)
| colorParseError
| numericParseError
| panicUnwrapNone
| panicSliceOutOfRange
deriving DecidableEq

/-- Whether `c` is a digit accepted by Rust's `char::to_digit(16)`:
`0`-`9`, `a`-`f`, `A`-`F` (compared by code point, as Rust does). -/
def isHexDigit16 (c : Char) : Bool :=
  ('0'.toNat ≤ c.toNat && c.toNat ≤ '9'.toNat) ||
  ('a'.toNat ≤ c.toNat && c.toNat ≤ 'f'.toNat) ||
  ('A'.toNat ≤ c.toNat && c.toNat ≤ 'F'.toNat)

/-- The value of a hex digit (Rust's `char::to_digit(16)` on accepted digits). -/
def hexVal (c : Char) : Nat :=
  if '0'.toNat ≤ c.toNat && c.toNat ≤ '9'.toNat then c.toNat - '0'.toNat
  else if 'a'.toNat ≤ c.toNat && c.toNat ≤ 'f'.toNat then c.toNat - 'a'.toNat + 10
  else c.toNat - 'A'.toNat + 10

/-- The digit loop of `u8::from_str_radix(_, 16)`: fold base-16 digits into an
accumulator, failing on a non-digit or on overflow past `u8::MAX = 255`. -/
def parseHexDigits : List Char → Nat → Option Nat
| [], acc => some acc
| c :: rest, acc =>
  if isHexDigit16 c then
    let acc' := acc * 16 + hexVal c
    if acc' ≤ 255 then parseHexDigits rest acc' else none
  else none

/-- Embedding of `u8::from_str_radix(s, 16)`: an empty string or a lone sign
fails; a leading `+` is stripped (for the unsigned type a leading `-` is not a
digit and fails in the digit loop); then the digit loop runs. `none` stands
for any `ParseIntError`. -/
def fromStrRadix16u8 (s : List Char) : Option Nat :=
  match s with
  | [] => none
  | '+' :: [] => none
  | '+' :: rest => parseHexDigits rest 0
  | _ => parseHexDigits s 0

/-- Rust slice `&s[i..j]` at character granularity: `none` models the
out-of-range slice panic. -/
def rustSlice (s : List Char) (i j : Nat) : Option (List Char) :=
  if i ≤ j ∧ j ≤ s.length then some ((s.drop i).take (j - i)) else none

/-- Shallow embedding of `<Color as FromStr>::from_str` from src/main.rs.
The input string is given as its character list.  `.unwrap()` on the first
character of an empty string is `panicUnwrapNone`; each fixed-offset slice
that is out of range is `panicSliceOutOfRange`; a failing
`u8::from_str_radix` propagated by `?` is `numericParseError`. -/
def Color.from_str (hex_code : List Char) : FromStrResult :=
  match hex_code.head? with
  | none => .panicUnwrapNone
  | some c0 =>
    if c0 ≠ '#' then .colorParseError
    else
      match rustSlice hex_code 1 3 with
      | none => .panicSliceOutOfRange
      | some rs =>
        match fromStrRadix16u8 rs with
        | none => .numericParseError
        | some r =>
          match rustSlice hex_code 3 5 with
          | none => .panicSliceOutOfRange
          | some gs =>
            match fromStrRadix16u8 gs with
            | none => .numericParseError
            | some g =>
              match rustSlice hex_code 5 7 with
              | none => .panicSliceOutOfRange
              | some bs =>
                match fromStrRadix16u8 bs with
                | none => .numericParseError
                | some b =>
                  if hex_code.length > 7 then
                    match rustSlice hex_code 7 9 with
                    | none => .panicSliceOutOfRange
                    | some sa =>
                      match fromStrRadix16u8 sa with
                      | none => .numericParseError
                      | some av => .ok ⟨r, g, b, (av : ℚ) / 255⟩
                  else .ok ⟨r, g, b, 1⟩

/-- `Color::gl` from src/main.rs: `(color as f32 / 255.0) * self.a`. -/
def Color.gl (self : Color) (color : Nat) : ℚ :=
  ((color : ℚ) / 255) * self.a

/-- `Color::gl_red`. -/
def Color.gl_red (self : Color) : ℚ := self.gl self.r

/-- `Color::gl_green`. -/
def Color.gl_green (self : Color) : ℚ := self.gl self.g

/-- `Color::gl_blue`. -/
def Color.gl_blue (self : Color) : ℚ := self.gl self.b

/-- `Color::gl_alpha`. -/
def Color.gl_alpha (self : Color) : ℚ := self.a

/-- Code points of the hex-digit range endpoints, used to settle the
range conditions of `isHexDigit16` and `hexVal` by linear arithmetic. -/
theorem hexRangeCodePoints :
    '0'.toNat = 48 ∧ '9'.toNat = 57 ∧ 'a'.toNat = 97 ∧ 'f'.toNat = 102 ∧
    'A'.toNat = 65 ∧ 'F'.toNat = 70 :=
  ⟨rfl, rfl, rfl, rfl, rfl, rfl⟩

/-- The value of a single hex digit is at most 15. -/
theorem hexVal_le_15 (c : Char) (h : isHexDigit16 c = true) : hexVal c ≤ 15 := by
  unfold isHexDigit16 at h
  unfold hexVal
  obtain ⟨e0, e9, ea, ef, eA, eF⟩ := hexRangeCodePoints
  simp only [e0, e9, ea, ef, eA, eF, Bool.or_eq_true, Bool.and_eq_true,
    decide_eq_true_eq] at h ⊢
  split_ifs with h1 h2 <;> omega

/-- `u8::from_str_radix` on a two-hex-digit string succeeds with the base-16
value of the two digits. -/
theorem fromStrRadix16u8_pair (a b : Char) (ha : isHexDigit16 a = true)
    (hb : isHexDigit16 b = true) :
    fromStrRadix16u8 [a, b] = some (hexVal a * 16 + hexVal b) := by
  have hplus : a ≠ '+' := by
    intro h
    subst h
    simp [isHexDigit16] at ha
  have hva := hexVal_le_15 a ha
  have hvb := hexVal_le_15 b hb
  unfold fromStrRadix16u8
  split
  · simp_all
  · simp_all
  · rename_i rest heq
    exact absurd (by injection heq) hplus
  · unfold parseHexDigits
    rw [ha]
    simp only [if_pos (by omega : 0 * 16 + hexVal a ≤ 255)]
    unfold parseHexDigits
    rw [hb]
    simp only [if_pos (by omega : (0 * 16 + hexVal a) * 16 + hexVal b ≤ 255)]
    unfold parseHexDigits
    have harith : (0 * 16 + hexVal a) * 16 + hexVal b = hexVal a * 16 + hexVal b := by
      ring
    rw [harith]
    simp

/-- An in-range slice returns the expected sublist. -/
theorem rustSlice_of_le (s : List Char) (i j : Nat) (hij : i ≤ j)
    (hj : j ≤ s.length) :
    rustSlice s i j = some ((s.drop i).take (j - i)) := by
  simp [rustSlice, hij, hj]

/-- Claim C1: for every anchor, `compute_window_bounds` returns a size whose
thick-axis component (height for Top/Bottom, width for Left/Right) equals the
input `size`, and whose full-span-axis component equals the desktop extent on
that axis minus the near and far margins. -/
theorem compute_window_bounds_thick_and_span
    (desktop_size gap_v gap_h : ℚ × ℚ) (size : ℚ) (anchor : Anchor) :
    match anchor with
    | .Top | .Bottom =>
        (compute_window_bounds desktop_size anchor gap_v gap_h size).2.2 = size ∧
        (compute_window_bounds desktop_size anchor gap_v gap_h size).2.1 =
          desktop_size.1 - gap_h.1 - gap_h.2
    | .Left | .Right =>
        (compute_window_bounds desktop_size anchor gap_v gap_h size).2.1 = size ∧
        (compute_window_bounds desktop_size anchor gap_v gap_h size).2.2 =
          desktop_size.2 - gap_v.1 - gap_v.2 := by
  cases anchor <;> simp [compute_window_bounds]

/-- Claim C2: edge-attachment identities of `compute_window_bounds`: for `Right`,
`position.x + size.width + gap_h.right = desktop.width`; for `Bottom`,
`position.y + size.height + gap_v.bottom = desktop.height`; for `Top` and
`Left`, `position.x = gap_h.left` and `position.y = gap_v.top`. -/
theorem compute_window_bounds_edge_relations
    (desktop_size gap_v gap_h : ℚ × ℚ) (size : ℚ) :
    ((compute_window_bounds desktop_size .Right gap_v gap_h size).1.1 +
       (compute_window_bounds desktop_size .Right gap_v gap_h size).2.1 +
       gap_h.2 = desktop_size.1) ∧
    ((compute_window_bounds desktop_size .Bottom gap_v gap_h size).1.2 +
       (compute_window_bounds desktop_size .Bottom gap_v gap_h size).2.2 +
       gap_v.2 = desktop_size.2) ∧
    ((compute_window_bounds desktop_size .Top gap_v gap_h size).1.1 = gap_h.1 ∧
     (compute_window_bounds desktop_size .Top gap_v gap_h size).1.2 = gap_v.1) ∧
    ((compute_window_bounds desktop_size .Left gap_v gap_h size).1.1 = gap_h.1 ∧
     (compute_window_bounds desktop_size .Left gap_v gap_h size).1.2 = gap_v.1) := by
  refine ⟨?_, ?_, ⟨?_, ?_⟩, ⟨?_, ?_⟩⟩ <;> simp [compute_window_bounds]

/-- Claim C9: the two concrete scenarios from the spec: anchoring right on a
1000×800 desktop with no gaps and thickness 100 gives position (900, 0) and
size (100, 800); anchoring top with gap_v = (10, 0), gap_h = (5, 5) and
thickness 50 gives position (5, 10) and size (990, 50). -/
theorem compute_window_bounds_concrete_scenarios :
    compute_window_bounds (1000, 800) .Right (0, 0) (0, 0) 100 =
      ((900, 0), (100, 800)) ∧
    compute_window_bounds (1000, 800) .Top (10, 0) (5, 5) 50 =
      ((5, 10), (990, 50)) := by
  constructor <;> norm_num [compute_window_bounds]

/-- Claim C3: parsing any string whose first character is not the hash sign
fails with `ColorParseError`. -/
theorem from_str_requires_hash (s : List Char) (c0 : Char)
    (h1 : s.head? = some c0) (h2 : c0 ≠ '#') :
    Color.from_str s = .colorParseError := by
  unfold Color.from_str
  simp only [h1]
  rw [if_pos h2]

/-- Witness for C3: the spec scenario, parsing a 6-hex-digit string with the
hash sign missing fails with the color-format error. -/
theorem from_str_requires_hash_witness :
    Color.from_str ['0', '0', 'f', 'f', '0', '0'] = .colorParseError :=
  from_str_requires_hash ['0', '0', 'f', 'f', '0', '0'] '0' rfl (by decide)

/-- Claim C10: parsing the empty string does not return `ColorParseError` or
any error value: the unchecked unwrap of the first-character lookup panics. -/
theorem from_str_empty_panics :
    Color.from_str [] = .panicUnwrapNone ∧
    FromStrResult.panicUnwrapNone ≠ .colorParseError ∧
    FromStrResult.panicUnwrapNone ≠ .numericParseError := by
  decide

/-- Claim C5: the accessors `gl_red`, `gl_green`, `gl_blue` return
`(channel_byte / 255) * a` for their respective stored channel byte,
`gl_alpha` returns the stored `a` unmodified, and all four are pure functions
of the immutable `Color` value: a repeated call returns the same value. -/
theorem gl_accessors_premultiply (c : Color) :
    c.gl_red = ((c.r : ℚ) / 255) * c.a ∧
    c.gl_green = ((c.g : ℚ) / 255) * c.a ∧
    c.gl_blue = ((c.b : ℚ) / 255) * c.a ∧
    c.gl_alpha = c.a ∧
    c.gl_red = c.gl_red ∧ c.gl_green = c.gl_green ∧
    c.gl_blue = c.gl_blue ∧ c.gl_alpha = c.gl_alpha :=
  ⟨rfl, rfl, rfl, rfl, rfl, rfl, rfl, rfl⟩

/-- Claim C4: for every successfully parsed color, if the input is longer
than 7 characters (the 8-hex-digit form) the stored alpha equals the parsed
alpha byte divided by 255, and otherwise (the 6-hex-digit form, length 7)
the stored alpha equals exactly 1. -/
theorem from_str_alpha_invariant (s : List Char) (c : Color)
    (h : Color.from_str s = .ok c) :
    (7 < s.length →
      ∃ sa av, rustSlice s 7 9 = some sa ∧ fromStrRadix16u8 sa = some av ∧
        c.a = (av : ℚ) / 255) ∧
    (s.length ≤ 7 → c.a = 1) := by
  unfold Color.from_str at h
  repeat' split at h
  all_goals simp_all
  all_goals rw [← h]

/-- Witness for C4: the spec scenario, parsing the 9-character string with
alpha byte 01 yields a color whose alpha is 1/255. -/
theorem from_str_alpha_invariant_witness :
    (7 < (['#', '0', '0', 'f', 'f', '0', '0', '0', '1'] : List Char).length →
      ∃ sa av, rustSlice ['#', '0', '0', 'f', 'f', '0', '0', '0', '1'] 7 9 = some sa ∧
        fromStrRadix16u8 sa = some av ∧
        (Color.mk 0 255 0 (((1 : ℕ) : ℚ) / 255)).a = (av : ℚ) / 255) ∧
    ((['#', '0', '0', 'f', 'f', '0', '0', '0', '1'] : List Char).length ≤ 7 →
      (Color.mk 0 255 0 (((1 : ℕ) : ℚ) / 255)).a = 1) :=
  from_str_alpha_invariant ['#', '0', '0', 'f', 'f', '0', '0', '0', '1']
    (Color.mk 0 255 0 (((1 : ℕ) : ℚ) / 255)) rfl

/-- Counterexample to claim C6 as stated: the group at offsets 1-2 of
`"#+f0000"` contains the non-hexadecimal character `+`, yet parsing succeeds
with r = 15 (Rust's `u8::from_str_radix` accepts a leading plus sign), so the
input does not fail with a numeric-parse error. -/
theorem from_str_plus_group_counterexample :
    isHexDigit16 '+' = false ∧
    Color.from_str ['#', '+', 'f', '0', '0', '0', '0'] = .ok ⟨15, 0, 0, 1⟩ ∧
    Color.from_str ['#', '+', 'f', '0', '0', '0', '0'] ≠ .numericParseError := by
  decide

/-- Claim C6 as amended: for every input string starting with the hash sign
and long enough for the fixed-offset slices (length at least 7, and at least
9 when longer than 7), if any of the fixed character groups at offsets 1-2,
3-4, 5-6 (or 7-8 when the length exceeds 7) fails hexadecimal `u8` parsing —
in particular when it contains a character that is not a hex digit and not a
leading plus sign followed by a hex digit — then `Color::from_str` fails with
a numeric-parse error, distinct from `ColorParseError`. -/
theorem from_str_failing_group_numericParseError (s : List Char)
    (h0 : s.head? = some '#') (h7 : 7 ≤ s.length)
    (h9 : 7 < s.length → 9 ≤ s.length)
    (hbad : fromStrRadix16u8 ((s.drop 1).take 2) = none ∨
            fromStrRadix16u8 ((s.drop 3).take 2) = none ∨
            fromStrRadix16u8 ((s.drop 5).take 2) = none ∨
            (7 < s.length ∧ fromStrRadix16u8 ((s.drop 7).take 2) = none)) :
    Color.from_str s = .numericParseError := by
  have e13 : rustSlice s 1 3 = some ((s.drop 1).take 2) := by
    rw [rustSlice_of_le _ 1 3 (by omega) (by omega)]
  have e35 : rustSlice s 3 5 = some ((s.drop 3).take 2) := by
    rw [rustSlice_of_le _ 3 5 (by omega) (by omega)]
  have e57 : rustSlice s 5 7 = some ((s.drop 5).take 2) := by
    rw [rustSlice_of_le _ 5 7 (by omega) (by omega)]
  unfold Color.from_str
  simp only [h0]
  rw [if_neg (fun hcc => hcc rfl)]
  simp only [e13]
  split
  · rfl
  · simp only [e35]
    split
    · rfl
    · simp only [e57]
      split
      · rfl
      · split
        · rename_i hlen7
          have e79 : rustSlice s 7 9 = some ((s.drop 7).take 2) := by
            rw [rustSlice_of_le _ 7 9 (by omega) (by exact h9 hlen7)]
          simp only [e79]
          split
          · rfl
          · rcases hbad with hb | hb | hb | ⟨hb1, hb2⟩ <;> simp_all
        · rcases hbad with hb | hb | hb | ⟨hb1, hb2⟩ <;> simp_all

/-- Witness for the amended C6: the spec scenario `"#zz0000"` fails with a
numeric-parse error. -/
theorem from_str_failing_group_numericParseError_witness :
    Color.from_str ['#', 'z', 'z', '0', '0', '0', '0'] = .numericParseError :=
  from_str_failing_group_numericParseError ['#', 'z', 'z', '0', '0', '0', '0']
    rfl (by decide) (by decide) (by decide)

/-- Counterexample to claim C7 as stated: `"#zz"` has length 3 (between 1 and
6) and starts with the hash sign, yet `Color::from_str` returns a clean
numeric-parse error — the failing hex parse of the first group happens before
any out-of-range slice is reached. -/
theorem from_str_short_numeric_counterexample :
    List.length ['#', 'z', 'z'] = 3 ∧
    Color.from_str ['#', 'z', 'z'] = .numericParseError ∧
    Color.from_str ['#', 'z', 'z'] ≠ .panicSliceOutOfRange := by
  decide

/-- Claim C7 as amended: for every input string of length between 1 and 6
that starts with the hash sign, `Color::from_str` never succeeds and never
returns the clean `ColorParseError`: the fixed-offset slicing performs an
out-of-range access, unless an earlier complete two-character group already
fails hexadecimal parsing, in which case the clean numeric-parse error is
returned instead. -/
theorem from_str_short_panics_or_numeric (s : List Char)
    (h0 : s.head? = some '#') (h6 : s.length ≤ 6) :
    Color.from_str s = .panicSliceOutOfRange ∨
    Color.from_str s = .numericParseError := by
  unfold Color.from_str
  simp only [h0]
  rw [if_neg (fun hcc => hcc rfl)]
  by_cases h3 : 3 ≤ s.length
  · rw [rustSlice_of_le _ 1 3 (by omega) h3]
    simp only []
    split
    · right; rfl
    · by_cases h5 : 5 ≤ s.length
      · rw [rustSlice_of_le _ 3 5 (by omega) h5]
        simp only []
        split
        · right; rfl
        · have e57 : rustSlice s 5 7 = none := by
            unfold rustSlice
            rw [if_neg]
            omega
          simp [e57]
      · have e35 : rustSlice s 3 5 = none := by
          unfold rustSlice
          rw [if_neg]
          omega
        simp [e35]
  · have e13 : rustSlice s 1 3 = none := by
      unfold rustSlice
      rw [if_neg]
      omega
    simp [e13]

/-- Witness for the amended C7: `"#ff"` starts with the hash sign, has length
3, and indeed hits the out-of-range slice or the numeric error. -/
theorem from_str_short_panics_or_numeric_witness :
    Color.from_str ['#', 'f', 'f'] = .panicSliceOutOfRange ∨
    Color.from_str ['#', 'f', 'f'] = .numericParseError :=
  from_str_short_panics_or_numeric ['#', 'f', 'f'] rfl (by decide)

/-- Claim C8: every input string longer than 9 characters that starts with
the hash sign and has hexadecimal digits at offsets 1 through 8 parses
successfully, and returns the same color as parsing its 9-character prefix:
the trailing characters beyond offset 8 are ignored.  The string is
quantified as `'#'` followed by eight hex digits `c1..c8`, a ninth character
`c9` and an arbitrary tail, which is exactly the strings of length at least
10 in scope. -/
theorem from_str_ignores_trailing_chars
    (c1 c2 c3 c4 c5 c6 c7 c8 c9 : Char) (rest : List Char)
    (h1 : isHexDigit16 c1 = true) (h2 : isHexDigit16 c2 = true)
    (h3 : isHexDigit16 c3 = true) (h4 : isHexDigit16 c4 = true)
    (h5 : isHexDigit16 c5 = true) (h6 : isHexDigit16 c6 = true)
    (h7 : isHexDigit16 c7 = true) (h8 : isHexDigit16 c8 = true) :
    (∃ col, Color.from_str
      ('#' :: c1 :: c2 :: c3 :: c4 :: c5 :: c6 :: c7 :: c8 :: c9 :: rest) = .ok col) ∧
    Color.from_str ('#' :: c1 :: c2 :: c3 :: c4 :: c5 :: c6 :: c7 :: c8 :: c9 :: rest) =
      Color.from_str ['#', c1, c2, c3, c4, c5, c6, c7, c8] := by
  have hlen : ('#' :: c1 :: c2 :: c3 :: c4 :: c5 :: c6 :: c7 :: c8 :: c9 :: rest).length =
      rest.length + 10 := by
    simp
  have e1 : rustSlice ('#' :: c1 :: c2 :: c3 :: c4 :: c5 :: c6 :: c7 :: c8 :: c9 :: rest)
      1 3 = some [c1, c2] := by
    rw [rustSlice_of_le _ 1 3 (by omega) (by rw [hlen]; omega)]; rfl
  have e2 : rustSlice ('#' :: c1 :: c2 :: c3 :: c4 :: c5 :: c6 :: c7 :: c8 :: c9 :: rest)
      3 5 = some [c3, c4] := by
    rw [rustSlice_of_le _ 3 5 (by omega) (by rw [hlen]; omega)]; rfl
  have e3 : rustSlice ('#' :: c1 :: c2 :: c3 :: c4 :: c5 :: c6 :: c7 :: c8 :: c9 :: rest)
      5 7 = some [c5, c6] := by
    rw [rustSlice_of_le _ 5 7 (by omega) (by rw [hlen]; omega)]; rfl
  have e4 : rustSlice ('#' :: c1 :: c2 :: c3 :: c4 :: c5 :: c6 :: c7 :: c8 :: c9 :: rest)
      7 9 = some [c7, c8] := by
    rw [rustSlice_of_le _ 7 9 (by omega) (by rw [hlen]; omega)]; rfl
  have f1 : rustSlice ['#', c1, c2, c3, c4, c5, c6, c7, c8] 1 3 = some [c1, c2] := rfl
  have f2 : rustSlice ['#', c1, c2, c3, c4, c5, c6, c7, c8] 3 5 = some [c3, c4] := rfl
  have f3 : rustSlice ['#', c1, c2, c3, c4, c5, c6, c7, c8] 5 7 = some [c5, c6] := rfl
  have f4 : rustSlice ['#', c1, c2, c3, c4, c5, c6, c7, c8] 7 9 = some [c7, c8] := rfl
  have p1 := fromStrRadix16u8_pair c1 c2 h1 h2
  have p2 := fromStrRadix16u8_pair c3 c4 h3 h4
  have p3 := fromStrRadix16u8_pair c5 c6 h5 h6
  have p4 := fromStrRadix16u8_pair c7 c8 h7 h8
  have hgt : ('#' :: c1 :: c2 :: c3 :: c4 :: c5 :: c6 :: c7 :: c8 :: c9 :: rest).length > 7 := by
    rw [hlen]; omega
  have hfull : Color.from_str ('#' :: c1 :: c2 :: c3 :: c4 :: c5 :: c6 :: c7 :: c8 :: c9 :: rest) =
      .ok ⟨hexVal c1 * 16 + hexVal c2, hexVal c3 * 16 + hexVal c4,
           hexVal c5 * 16 + hexVal c6, ((hexVal c7 * 16 + hexVal c8 : ℕ) : ℚ) / 255⟩ := by
    simp only [Color.from_str, List.head?_cons, e1, e2, e3, e4, p1, p2, p3, p4, hgt]
    simp
  have hpre : Color.from_str ['#', c1, c2, c3, c4, c5, c6, c7, c8] =
      .ok ⟨hexVal c1 * 16 + hexVal c2, hexVal c3 * 16 + hexVal c4,
           hexVal c5 * 16 + hexVal c6, ((hexVal c7 * 16 + hexVal c8 : ℕ) : ℚ) / 255⟩ := by
    simp only [Color.from_str, List.head?_cons, f1, f2, f3, f4, p1, p2, p3, p4]
    simp
  exact ⟨⟨_, hfull⟩, hfull.trans hpre.symm⟩

/-- Witness for C8: `"#00ff0001ZZ"` (11 characters) parses successfully and
gives the same color as its 9-character prefix `"#00ff0001"`. -/
theorem from_str_ignores_trailing_chars_witness :
    (∃ col, Color.from_str
      ['#', '0', '0', 'f', 'f', '0', '0', '0', '1', 'Z', 'Z'] = .ok col) ∧
    Color.from_str ['#', '0', '0', 'f', 'f', '0', '0', '0', '1', 'Z', 'Z'] =
      Color.from_str ['#', '0', '0', 'f', 'f', '0', '0', '0', '1'] :=
  from_str_ignores_trailing_chars '0' '0' 'f' 'f' '0' '0' '0' '1' 'Z' ['Z']
    (by decide) (by decide) (by decide) (by decide)
    (by decide) (by decide) (by decide) (by decide)
